import Mathlib

/-!
Verification of the PG-Strom "next" core against its specification.

The developments below shallowly embed the C sources:
  * `src/next/xpu_common.c`   — the device-side bytecode interpreter
    (three-valued boolean logic, NULL/BOOLEAN tests, `pg_hash_any`);
  * `src/next/xpu_basetype.h` — the fixed-width base-type template
    (`ref` / `store` / `hash` primitives);
  * `src/next/executor.c`     — the connection manager, the ready/active
    queues, the sticky error slot, the admission-control dispatcher and
    the session-parameter serializer.

Machine integers are modelled as `Nat` with explicit reduction modulo
`2^32` where 32-bit overflow matters.  C structs whose fields may be left
unassigned by a function (stack buffers the callee only partially fills)
are modelled by passing the buffer's previous contents explicitly, so an
unassigned field keeps its previous (arbitrary) value — exactly the C
behaviour.
-/

namespace PgStrom

/-! ### Three-valued booleans (`xpu_bool_t` of xpu_common.c)

`xpu_bool_t` carries an `isnull` flag and a boolean `value`.  The `ops`
pointer field is irrelevant to the properties below and is not modelled. -/

structure XpuBool where
  isnull : Bool
  value  : Bool
deriving DecidableEq, Repr

/-- The opcode tags (`FuncOpCode__...`) dispatched by the interpreter, as
listed in `builtin_xpu_functions_catalog` of xpu_common.c. -/
inductive FuncOpCode where
  | ConstExpr
  | ParamExpr
  | VarExpr
  | BoolExpr_And
  | BoolExpr_Or
  | BoolExpr_Not
  | NullTestExpr_IsNull
  | NullTestExpr_IsNotNull
  | BoolTestExpr_IsTrue
  | BoolTestExpr_IsNotTrue
  | BoolTestExpr_IsFalse
  | BoolTestExpr_IsNotFalse
  | BoolTestExpr_IsUnknown
  | BoolTestExpr_IsNotUnknown
  | Invalid
deriving DecidableEq, Repr

/-- Loop body of `pgfn_BoolExprAnd` (xpu_common.c:65-79).  `args` holds the
already-evaluated child statuses in left-to-right order, `result0` is the
previous content of the caller-supplied result buffer, `anynull` is the
accumulator.  On the first non-null false child the C code assigns only
`result->value = false` and returns, leaving `result->isnull` at whatever
the buffer previously held; after a full pass it assigns both fields. -/
def boolExprAnd_loop (result0 : XpuBool) : List XpuBool → Bool → XpuBool
  | [], anynull => { isnull := anynull, value := true }
  | status :: rest, anynull =>
    if status.isnull then
      boolExprAnd_loop result0 rest true
    else if !status.value then
      { isnull := result0.isnull, value := false }
    else
      boolExprAnd_loop result0 rest anynull

/-- `pgfn_BoolExprAnd` (xpu_common.c:56-83): three-valued AND over the
children `args`, with `result0` the previous content of the result buffer. -/
def pgfn_BoolExprAnd (result0 : XpuBool) (args : List XpuBool) : XpuBool :=
  boolExprAnd_loop result0 args false

/-- Loop body of `pgfn_BoolExprOr` (xpu_common.c:94-108); symmetric to AND.
On the first non-null true child only `result->value = true` is assigned. -/
def boolExprOr_loop (result0 : XpuBool) : List XpuBool → Bool → XpuBool
  | [], anynull => { isnull := anynull, value := false }
  | status :: rest, anynull =>
    if status.isnull then
      boolExprOr_loop result0 rest true
    else if status.value then
      { isnull := result0.isnull, value := true }
    else
      boolExprOr_loop result0 rest anynull

/-- `pgfn_BoolExprOr` (xpu_common.c:85-112). -/
def pgfn_BoolExprOr (result0 : XpuBool) (args : List XpuBool) : XpuBool :=
  boolExprOr_loop result0 args false

/-- `pgfn_BoolExprNot` (xpu_common.c:114-132).  `status` is the evaluated
child, `result0` the previous content of the result buffer.  In the
non-null branch the C code executes `result->value = !result->value;`,
i.e. it negates the stale buffer content, not the child's value. -/
def pgfn_BoolExprNot (result0 : XpuBool) (status : XpuBool) : XpuBool :=
  if status.isnull then
    { isnull := true, value := result0.value }
  else
    { isnull := false, value := !result0.value }

/-- `pgfn_NullTestExpr` (xpu_common.c:134-159).  The child is an arbitrary
datum of which only the `isnull` flag is inspected.  `none` models the
`STROM_ELOG` failure on a corrupted opcode. -/
def pgfn_NullTestExpr (opcode : FuncOpCode) (status_isnull : Bool) :
    Option XpuBool :=
  match opcode with
  | .NullTestExpr_IsNull    => some { isnull := false, value := status_isnull }
  | .NullTestExpr_IsNotNull => some { isnull := false, value := !status_isnull }
  | _ => none

/-- `pgfn_BoolTestExpr` (xpu_common.c:161-197).  `status` is the evaluated
boolean child; `none` models the `STROM_ELOG` failure on a corrupted
opcode. -/
def pgfn_BoolTestExpr (opcode : FuncOpCode) (status : XpuBool) :
    Option XpuBool :=
  match opcode with
  | .BoolTestExpr_IsTrue =>
      some { isnull := false, value := !status.isnull && status.value }
  | .BoolTestExpr_IsNotTrue =>
      some { isnull := false, value := status.isnull || !status.value }
  | .BoolTestExpr_IsFalse =>
      some { isnull := false, value := !status.isnull && !status.value }
  | .BoolTestExpr_IsNotFalse =>
      some { isnull := false, value := status.isnull || status.value }
  | .BoolTestExpr_IsUnknown =>
      some { isnull := false, value := status.isnull }
  | .BoolTestExpr_IsNotUnknown =>
      some { isnull := false, value := !status.isnull }
  | _ => none

/-! ### `pg_hash_any` (xpu_common.c:260-381)

The input is a byte sequence (`List Nat`); all arithmetic is on `Nat`
reduced modulo `2^32` at every 32-bit operation.  The word-wide fetch
`ka[i]` of the aligned code path is modelled by little-endian byte
composition (`le32`), which is what the load performs on the
little-endian devices the kernel code runs on. -/

/-- `2^32`, the modulus of all `uint32_t` arithmetic in `pg_hash_any`. -/
def UINT32_MOD : Nat := 4294967296

/-- `uint32_t` addition. -/
def add32 (x y : Nat) : Nat := (x + y) % UINT32_MOD

/-- `uint32_t` subtraction (wrap-around). -/
def sub32 (x y : Nat) : Nat := (x + (UINT32_MOD - y % UINT32_MOD)) % UINT32_MOD

/-- `uint32_t` exclusive or. -/
def xor32 (x y : Nat) : Nat := (x ^^^ y) % UINT32_MOD

/-- `rot(x,k) = (x<<k) | (x>>(32-k))` on `uint32_t` (xpu_common.c:238). -/
def rot32 (x k : Nat) : Nat :=
  ((x <<< k) % UINT32_MOD) ||| ((x % UINT32_MOD) >>> (32 - k))

/-- Little-endian `uint32_t` composed of four bytes: model of the
word-wide fetch `ka[i]`, and literally the sum computed by the unaligned
code path. -/
def le32 (k0 k1 k2 k3 : Nat) : Nat :=
  k0 + ((k1 <<< 8) + (k2 <<< 16) + (k3 <<< 24))

/-- The `mix(a,b,c)` macro (xpu_common.c:239-247), applied to a state
triple; every assignment uses the already-updated operands. -/
def mix32 (a0 b0 c0 : Nat) : Nat × Nat × Nat :=
  let a1 := sub32 a0 c0
  let a2 := xor32 a1 (rot32 c0 4)
  let c1 := add32 c0 b0
  let b1 := sub32 b0 a2
  let b2 := xor32 b1 (rot32 a2 6)
  let a3 := add32 a2 c1
  let c2 := sub32 c1 b2
  let c3 := xor32 c2 (rot32 b2 8)
  let b3 := add32 b2 a3
  let a4 := sub32 a3 c3
  let a5 := xor32 a4 (rot32 c3 16)
  let c4 := add32 c3 b3
  let b4 := sub32 b3 a5
  let b5 := xor32 b4 (rot32 a5 19)
  let a6 := add32 a5 c4
  let c5 := sub32 c4 b5
  let c6 := xor32 c5 (rot32 b5 4)
  let b6 := add32 b5 a6
  (a6, b6, c6)

/-- The `final(a,b,c)` macro (xpu_common.c:249-258). -/
def final32 (a0 b0 c0 : Nat) : Nat × Nat × Nat :=
  let c1 := xor32 c0 b0
  let c2 := sub32 c1 (rot32 b0 14)
  let a1 := xor32 a0 c2
  let a2 := sub32 a1 (rot32 c2 11)
  let b1 := xor32 b0 a2
  let b2 := sub32 b1 (rot32 a2 25)
  let c3 := xor32 c2 b2
  let c4 := sub32 c3 (rot32 b2 16)
  let a3 := xor32 a2 c4
  let a4 := sub32 a3 (rot32 c4 4)
  let b3 := xor32 b2 a4
  let b4 := sub32 b3 (rot32 a4 14)
  let c5 := xor32 c4 b4
  let c6 := sub32 c5 (rot32 b4 24)
  (a4, b4, c6)

/-- Tail switch of the aligned code path (xpu_common.c:289-326): at most
11 bytes remain; cases 4-8 add whole little-endian words (`ka[0]`,
`ka[1]`), the other cases add shifted single bytes, in the fall-through
order of the C `switch`.  The catch-all (12 or more remaining bytes) is
unreachable after the main loop. -/
def pg_hash_any_aligned_tail (ks : List Nat) (a b c : Nat) : Nat × Nat × Nat :=
  match ks with
  | [] => (a, b, c)
  | [k0] => (add32 a k0, b, c)
  | [k0, k1] => (add32 (add32 a (k1 <<< 8)) k0, b, c)
  | [k0, k1, k2] => (add32 (add32 (add32 a (k2 <<< 16)) (k1 <<< 8)) k0, b, c)
  | [k0, k1, k2, k3] => (add32 a (le32 k0 k1 k2 k3), b, c)
  | [k0, k1, k2, k3, k4] =>
      (add32 a (le32 k0 k1 k2 k3), add32 b k4, c)
  | [k0, k1, k2, k3, k4, k5] =>
      (add32 a (le32 k0 k1 k2 k3), add32 (add32 b (k5 <<< 8)) k4, c)
  | [k0, k1, k2, k3, k4, k5, k6] =>
      (add32 a (le32 k0 k1 k2 k3),
       add32 (add32 (add32 b (k6 <<< 16)) (k5 <<< 8)) k4, c)
  | [k0, k1, k2, k3, k4, k5, k6, k7] =>
      (add32 a (le32 k0 k1 k2 k3), add32 b (le32 k4 k5 k6 k7), c)
  | [k0, k1, k2, k3, k4, k5, k6, k7, k8] =>
      (add32 a (le32 k0 k1 k2 k3), add32 b (le32 k4 k5 k6 k7),
       add32 c (k8 <<< 8))
  | [k0, k1, k2, k3, k4, k5, k6, k7, k8, k9] =>
      (add32 a (le32 k0 k1 k2 k3), add32 b (le32 k4 k5 k6 k7),
       add32 (add32 c (k9 <<< 16)) (k8 <<< 8))
  | [k0, k1, k2, k3, k4, k5, k6, k7, k8, k9, k10] =>
      (add32 a (le32 k0 k1 k2 k3), add32 b (le32 k4 k5 k6 k7),
       add32 (add32 (add32 c (k10 <<< 24)) (k9 <<< 16)) (k8 <<< 8))
  | _ => (a, b, c)

/-- Tail switch of the unaligned code path (xpu_common.c:350-376):
identical byte contributions but added one shifted byte at a time, in the
fall-through order of the C `switch`. -/
def pg_hash_any_unaligned_tail (ks : List Nat) (a b c : Nat) :
    Nat × Nat × Nat :=
  match ks with
  | [] => (a, b, c)
  | [k0] => (add32 a k0, b, c)
  | [k0, k1] => (add32 (add32 a (k1 <<< 8)) k0, b, c)
  | [k0, k1, k2] => (add32 (add32 (add32 a (k2 <<< 16)) (k1 <<< 8)) k0, b, c)
  | [k0, k1, k2, k3] =>
      (add32 (add32 (add32 (add32 a (k3 <<< 24)) (k2 <<< 16)) (k1 <<< 8)) k0,
       b, c)
  | [k0, k1, k2, k3, k4] =>
      (add32 (add32 (add32 (add32 a (k3 <<< 24)) (k2 <<< 16)) (k1 <<< 8)) k0,
       add32 b k4, c)
  | [k0, k1, k2, k3, k4, k5] =>
      (add32 (add32 (add32 (add32 a (k3 <<< 24)) (k2 <<< 16)) (k1 <<< 8)) k0,
       add32 (add32 b (k5 <<< 8)) k4, c)
  | [k0, k1, k2, k3, k4, k5, k6] =>
      (add32 (add32 (add32 (add32 a (k3 <<< 24)) (k2 <<< 16)) (k1 <<< 8)) k0,
       add32 (add32 (add32 b (k6 <<< 16)) (k5 <<< 8)) k4, c)
  | [k0, k1, k2, k3, k4, k5, k6, k7] =>
      (add32 (add32 (add32 (add32 a (k3 <<< 24)) (k2 <<< 16)) (k1 <<< 8)) k0,
       add32 (add32 (add32 (add32 b (k7 <<< 24)) (k6 <<< 16)) (k5 <<< 8)) k4,
       c)
  | [k0, k1, k2, k3, k4, k5, k6, k7, k8] =>
      (add32 (add32 (add32 (add32 a (k3 <<< 24)) (k2 <<< 16)) (k1 <<< 8)) k0,
       add32 (add32 (add32 (add32 b (k7 <<< 24)) (k6 <<< 16)) (k5 <<< 8)) k4,
       add32 c (k8 <<< 8))
  | [k0, k1, k2, k3, k4, k5, k6, k7, k8, k9] =>
      (add32 (add32 (add32 (add32 a (k3 <<< 24)) (k2 <<< 16)) (k1 <<< 8)) k0,
       add32 (add32 (add32 (add32 b (k7 <<< 24)) (k6 <<< 16)) (k5 <<< 8)) k4,
       add32 (add32 c (k9 <<< 16)) (k8 <<< 8))
  | [k0, k1, k2, k3, k4, k5, k6, k7, k8, k9, k10] =>
      (add32 (add32 (add32 (add32 a (k3 <<< 24)) (k2 <<< 16)) (k1 <<< 8)) k0,
       add32 (add32 (add32 (add32 b (k7 <<< 24)) (k6 <<< 16)) (k5 <<< 8)) k4,
       add32 (add32 (add32 c (k10 <<< 24)) (k9 <<< 16)) (k8 <<< 8))
  | _ => (a, b, c)

/-- Main loop plus tail plus `final` of the aligned code path
(xpu_common.c:270-327, 378-380): consume 12 bytes per iteration as three
little-endian words, `mix`, recurse; on fewer than 12 remaining bytes run
the tail switch and `final`, returning `c`. -/
def pg_hash_any_aligned_rest : List Nat → Nat → Nat → Nat → Nat
  | k0 :: k1 :: k2 :: k3 :: k4 :: k5 :: k6 :: k7 ::
      k8 :: k9 :: k10 :: k11 :: rest, a, b, c =>
    let m := mix32 (add32 a (le32 k0 k1 k2 k3))
                   (add32 b (le32 k4 k5 k6 k7))
                   (add32 c (le32 k8 k9 k10 k11))
    pg_hash_any_aligned_rest rest m.1 m.2.1 m.2.2
  | ks, a, b, c =>
    let t := pg_hash_any_aligned_tail ks a b c
    (final32 t.1 t.2.1 t.2.2).2.2

/-- Main loop plus tail plus `final` of the unaligned code path
(xpu_common.c:329-377, 378-380): consume 12 bytes per iteration adding
the byte-composed sums written out in the C source, `mix`, recurse. -/
def pg_hash_any_unaligned_rest : List Nat → Nat → Nat → Nat → Nat
  | k0 :: k1 :: k2 :: k3 :: k4 :: k5 :: k6 :: k7 ::
      k8 :: k9 :: k10 :: k11 :: rest, a, b, c =>
    let m := mix32 (add32 a (k0 + ((k1 <<< 8) + (k2 <<< 16) + (k3 <<< 24))))
                   (add32 b (k4 + ((k5 <<< 8) + (k6 <<< 16) + (k7 <<< 24))))
                   (add32 c (k8 + ((k9 <<< 8) + (k10 <<< 16) + (k11 <<< 24))))
    pg_hash_any_unaligned_rest rest m.1 m.2.1 m.2.2
  | ks, a, b, c =>
    let t := pg_hash_any_unaligned_tail ks a b c
    (final32 t.1 t.2.1 t.2.2).2.2

/-- `pg_hash_any`, aligned code path (xpu_common.c:271-327): internal
state initialised to `0x9e3779b9 + len + 3923095`. -/
def pg_hash_any_aligned (ks : List Nat) : Nat :=
  let init := (0x9e3779b9 + ks.length + 3923095) % UINT32_MOD
  pg_hash_any_aligned_rest ks init init init

/-- `pg_hash_any`, unaligned code path (xpu_common.c:328-377). -/
def pg_hash_any_unaligned (ks : List Nat) : Nat :=
  let init := (0x9e3779b9 + ks.length + 3923095) % UINT32_MOD
  pg_hash_any_unaligned_rest ks init init init

/-! ### Fixed-width base types (`PGSTROM_SIMPLE_BASETYPE_TEMPLATE`,
xpu_basetype.h:15-69)

A fixed-width datum is modelled by its `isnull` flag and the raw
`sizeof(BASETYPE)`-byte representation of its value, read and written in
little-endian order (`leEncode`/`leDecode`); the template is generic in
`sizeof(BASETYPE)`, written `w` below.  Memory addresses are modelled as
the byte list stored at the address (`none` = NULL pointer). -/

/-- A device datum of a simple fixed-width type: `isnull` flag plus the raw
value bits (as a natural number below `2^(8*width)`). -/
structure XpuDatum where
  isnull : Bool
  value  : Nat
deriving DecidableEq, Repr

/-- Little-endian encoding of `v` into exactly `w` bytes. -/
def leEncode : Nat → Nat → List Nat
  | 0, _ => []
  | w + 1, v => (v % 256) :: leEncode w (v / 256)

/-- Little-endian decoding of a byte list. -/
def leDecode : List Nat → Nat
  | [] => 0
  | b :: bs => b + 256 * leDecode bs

/-- `xpu_NAME_datum_ref` (xpu_basetype.h:16-30): `memset` the result to
zero; a NULL address yields a null datum, otherwise the value is read as
`*((const BASETYPE *)addr)`, i.e. the first `w` bytes at the address. -/
def xpu_datum_ref (w : Nat) (addr : Option (List Nat)) : XpuDatum :=
  match addr with
  | none => { isnull := true, value := 0 }
  | some bytes => { isnull := false, value := leDecode (bytes.take w) }

/-- `xpu_NAME_datum_store` (xpu_basetype.h:44-55): returns the bytes
written into `buffer` together with the C return value (the number of
bytes written) — `0` for a null datum, `sizeof(BASETYPE)` otherwise. -/
def xpu_datum_store (w : Nat) (arg : XpuDatum) : List Nat × Nat :=
  if arg.isnull then ([], 0)
  else (leEncode w arg.value, w)

/-- `xpu_NAME_datum_hash` (xpu_basetype.h:56-68): `0` for a null datum,
otherwise `pg_hash_any(&arg->value, sizeof(BASETYPE))` — the value field
is a naturally aligned struct member, hence the aligned code path. -/
def xpu_datum_hash (w : Nat) (arg : XpuDatum) : Nat :=
  if arg.isnull then 0
  else pg_hash_any_aligned (leEncode w arg.value)

/-- One entry of the simple base-type catalog: type name and
`sizeof(BASETYPE)`. -/
structure XpuTypeEntry where
  name  : String
  width : Nat
deriving DecidableEq, Repr

/-- The simple fixed-width types instantiated from the template
(xpu_basetype.h:71-78) with their `sizeof(BASETYPE)`:
`int8_t`, `int8_t`, `int16_t`, `int32_t`, `int64_t`, `float2_t`,
`float4_t`, `float8_t`. -/
def builtin_simple_basetypes : List XpuTypeEntry :=
  [⟨"bool", 1⟩, ⟨"int1", 1⟩, ⟨"int2", 2⟩, ⟨"int4", 4⟩, ⟨"int8", 8⟩,
   ⟨"float2", 2⟩, ⟨"float4", 4⟩, ⟨"float8", 8⟩]

/-! ### Connection manager and dispatcher (executor.c)

`XpuConnection` (executor.c:17-32) is modelled by its mutex-protected
fields; the socket, resource owner and thread handle play no role in the
claims.  Commands carry an identifying payload tag (`cmd_id`) standing
for the opaque result payload. -/

/-- The error record `kern_errorbuf` (error code, source file, line,
function, message) as used by executor.c. -/
structure KernErrorbuf where
  errcode  : Nat
  filename : String
  lineno   : Nat
  funcname : String
  message  : String
deriving DecidableEq, Repr

/-- Modelled from the spec: the distinguished success code
`ERRCODE_STROM_SUCCESS` held by the zero-initialised error slot of a
fresh connection (its defining header, xpu_common.h, is not among the
sources; executor.c compares the slot against it, and `calloc` leaves the
slot all-zero, so the success code is zero). -/
def ERRCODE_STROM_SUCCESS : Nat := 0

/-- The command tags of the wire protocol used by executor.c. -/
inductive XpuCommandTag where
  | OpenSession
  | Success
  | CPUFallback
  | Error
deriving DecidableEq, Repr

/-- An `XpuCommand` as seen by the connection manager: its tag, an
identifier standing for the opaque payload, and the `u.error` member
(meaningful when `tag = Error`). -/
structure XpuCommand where
  tag    : XpuCommandTag
  cmd_id : Nat
  error  : KernErrorbuf
deriving DecidableEq, Repr

/-- The mutex-protected state of `struct XpuConnection`
(executor.c:17-32). -/
structure XpuConnection where
  num_running_cmds : Nat
  num_ready_cmds   : Nat
  ready_cmds_list  : List XpuCommand
  active_cmds_list : List XpuCommand
  errorbuf         : KernErrorbuf
deriving DecidableEq, Repr

/-- A freshly created connection (`calloc` + `dlist_init` in
`__xpuClientOpenSession`, executor.c:1627-1641): zero counters, empty
queues, all-zero error slot. -/
def initXpuConnection : XpuConnection :=
  { num_running_cmds := 0
    num_ready_cmds := 0
    ready_cmds_list := []
    active_cmds_list := []
    errorbuf := { errcode := ERRCODE_STROM_SUCCESS
                  filename := "", lineno := 0, funcname := "", message := "" } }

/-- `__xpuConnectAttachCommand` (executor.c:54-81), run by the receiver
thread under the connection mutex: decrement the running counter; an
`Error` command is merged into the sticky error slot only when the slot
still holds the success code (then the command is freed); any other
command is appended at the tail of the ready queue. -/
def __xpuConnectAttachCommand (conn : XpuConnection) (xcmd : XpuCommand) :
    XpuConnection :=
  let conn := { conn with num_running_cmds := conn.num_running_cmds - 1 }
  if xcmd.tag = XpuCommandTag.Error then
    if conn.errorbuf.errcode = ERRCODE_STROM_SUCCESS then
      { conn with errorbuf := xcmd.error }
    else
      conn
  else
    { conn with
      ready_cmds_list := conn.ready_cmds_list ++ [xcmd]
      num_ready_cmds := conn.num_ready_cmds + 1 }

/-- The mutex-protected effect of `xpuClientSendCommand` /
`xpuClientSendCommandIOV` (executor.c:149-151, 180-182): increment the
running counter. -/
def xpuClientSendCommandIOV (conn : XpuConnection) : XpuConnection :=
  { conn with num_running_cmds := conn.num_running_cmds + 1 }

/-- `__pickupNextXpuCommand` (executor.c:578-591): pop the head of the
ready queue, push it at the tail of the active queue, decrement the ready
counter.  `none` models the asserted-impossible empty-queue case. -/
def __pickupNextXpuCommand (conn : XpuConnection) :
    Option (XpuCommand × XpuConnection) :=
  match conn.ready_cmds_list with
  | [] => none
  | xcmd :: rest =>
      some (xcmd,
            { conn with
              ready_cmds_list := rest
              active_cmds_list := conn.active_cmds_list ++ [xcmd]
              num_ready_cmds := conn.num_ready_cmds - 1 })

/-- The action selected by one iteration of `__fetchNextXpuCommand`'s
dispatcher loop. -/
inductive FetchAction where
  | raiseError (e : KernErrorbuf)
  | loadNextChunk
  | returnReady (xcmd : XpuCommand) (conn : XpuConnection)
  | waitResponse
  | shortSleep
deriving DecidableEq, Repr

/-- One iteration of the dispatcher loop of `__fetchNextXpuCommand`
(executor.c:677-748), as a function of the state read under the mutex and
of the concurrency ceiling `C` (`pgstrom_max_async_tasks`): raise a
sticky error first; else if `running + ready < C` and (the ready queue is
empty or `running < C/2`) load and send the next chunk; else return the
head of the ready queue if any; else wait for a response when commands
are running; else take a short sleep. -/
def __fetchNextXpuCommandStep (C : Nat) (conn : XpuConnection) : FetchAction :=
  if conn.errorbuf.errcode ≠ ERRCODE_STROM_SUCCESS then
    .raiseError conn.errorbuf
  else if conn.num_running_cmds + conn.num_ready_cmds < C ∧
          (conn.ready_cmds_list.isEmpty ∨ conn.num_running_cmds < C / 2) then
    .loadNextChunk
  else
    match __pickupNextXpuCommand conn with
    | some (xcmd, conn') => .returnReady xcmd conn'
    | none =>
        if 0 < conn.num_running_cmds then .waitResponse else .shortSleep

/-- The action selected by one iteration of
`__waitAndFetchNextXpuCommand`'s loop. -/
inductive WaitFetchAction where
  | raiseError (e : KernErrorbuf)
  | returnReady (xcmd : XpuCommand) (conn : XpuConnection)
  | waitRunning
  | tryFinalChunk
deriving DecidableEq, Repr

/-- One iteration of the loop of `__waitAndFetchNextXpuCommand`
(executor.c:602-657): raise a sticky error first; else pick up the head
of the ready queue if any; else wait while commands are running; else the
one-shot finalization chunk may be built and sent. -/
def __waitAndFetchNextXpuCommandStep (conn : XpuConnection) :
    WaitFetchAction :=
  if conn.errorbuf.errcode ≠ ERRCODE_STROM_SUCCESS then
    .raiseError conn.errorbuf
  else
    match __pickupNextXpuCommand conn with
    | some (xcmd, conn') => .returnReady xcmd conn'
    | none =>
        if 0 < conn.num_running_cmds then .waitRunning else .tryFinalChunk

/-- The events that mutate a connection's mutex-protected state, with the
guards under which executor.c performs them. -/
inductive XpuConnStep (C : Nat) : XpuConnection → XpuConnection → Prop where
  /-- `xpuClientSendCommand` of the `OpenSession` message
  (executor.c:1657), issued on a freshly created connection. -/
  | send_open (conn : XpuConnection)
      (h1 : conn.num_running_cmds = 0)
      (h2 : conn.ready_cmds_list = [])
      (h3 : conn.num_ready_cmds = 0) :
      XpuConnStep C conn (xpuClientSendCommandIOV conn)
  /-- `xpuClientSendCommandIOV` of the next input chunk
  (executor.c:711), reached only when the dispatcher selected the
  load-next-chunk branch. -/
  | send_chunk (conn : XpuConnection)
      (h : __fetchNextXpuCommandStep C conn = .loadNextChunk) :
      XpuConnStep C conn (xpuClientSendCommandIOV conn)
  /-- `xpuClientSendCommandIOV` of the one-shot finalization chunk
  (executor.c:642), reached only in the terminal-drain branch. -/
  | send_final (conn : XpuConnection)
      (h : __waitAndFetchNextXpuCommandStep conn = .tryFinalChunk) :
      XpuConnStep C conn (xpuClientSendCommandIOV conn)
  /-- The receiver thread attaches a received command
  (executor.c:54-81); `Assert(conn->num_running_cmds > 0)`, and an
  `Error` command carries a non-success code
  (`Assert(xcmd->u.error.errcode != ERRCODE_STROM_SUCCESS)`). -/
  | attach (conn : XpuConnection) (xcmd : XpuCommand)
      (h : 0 < conn.num_running_cmds)
      (hwf : xcmd.tag = XpuCommandTag.Error →
             xcmd.error.errcode ≠ ERRCODE_STROM_SUCCESS) :
      XpuConnStep C conn (__xpuConnectAttachCommand conn xcmd)
  /-- The consumer picks up the head of the ready queue
  (executor.c:578-591, via executor.c:658 or 715). -/
  | pickup (conn conn' : XpuConnection) (xcmd : XpuCommand)
      (h : __pickupNextXpuCommand conn = some (xcmd, conn')) :
      XpuConnStep C conn conn'

/-- The connection states reachable from a fresh connection through the
events of executor.c. -/
inductive XpuConnReachable (C : Nat) : XpuConnection → Prop where
  | init : XpuConnReachable C initXpuConnection
  | step {conn conn' : XpuConnection} (h : XpuConnReachable C conn)
      (hs : XpuConnStep C conn conn') : XpuConnReachable C conn'

/-- A queue-level event: the receiver thread attaches a received command
(`recv`), or the consumer fetches (`fetch`, a ready-queue pickup). -/
inductive QueueEvent where
  | recv (xcmd : XpuCommand)
  | fetch
deriving DecidableEq, Repr

/-- Run a sequence of queue events against a connection through the
executor.c operations, collecting, in order, the commands the consumer's
fetches return (a `fetch` on an empty ready queue returns nothing and the
consumer keeps waiting). -/
def runConnQueue (conn : XpuConnection) : List QueueEvent →
    List XpuCommand × XpuConnection
  | [] => ([], conn)
  | QueueEvent.recv xcmd :: es =>
      runConnQueue (__xpuConnectAttachCommand conn xcmd) es
  | QueueEvent.fetch :: es =>
      match __pickupNextXpuCommand conn with
      | none => runConnQueue conn es
      | some (xcmd, conn') =>
          let r := runConnQueue conn' es
          (xcmd :: r.1, r.2)

/-- The responses a sequence of events appends to the ready queue, in
order: every received command except `Error` commands, which go to the
sticky error slot instead (executor.c:63-78). -/
def enqueuedResponses : List QueueEvent → List XpuCommand
  | [] => []
  | QueueEvent.recv xcmd :: es =>
      if xcmd.tag = XpuCommandTag.Error then enqueuedResponses es
      else xcmd :: enqueuedResponses es
  | QueueEvent.fetch :: es => enqueuedResponses es

/-! ### Session builder (`__build_session_param_info`, executor.c:293-395)
and `pgfn_ParamExpr` (xpu_common.c:38-48)

The parameter sources (`ParamExecData` after `ExecSetParamPlan`
resolution, `ParamExternData` from `paramFetch`/`params[]`) are host
collaborators represented by lookup functions from parameter id to the
runtime record.  The per-type copying (`typbyval` raw copy, `typlen`
by-reference copy, detoasted varlena copy) relies on host routines
(`get_typlenbyval`, `PG_DETOAST_DATUM`) outside the sources; following
the spec ("fixed-length by-value → copy raw bytes; fixed-length
by-reference → copy `typlen` bytes; variable-length → copy the canonical
(detoasted) external representation") the runtime record carries the
datum's canonical serialized byte image, appended as-is. -/

/-- `ParamKind` of a plan parameter (`PARAM_EXEC` / `PARAM_EXTERN` /
anything else). -/
inductive ParamKind where
  | PARAM_EXEC
  | PARAM_EXTERN
  | otherKind
deriving DecidableEq, Repr

/-- A `Param` node of `pp_info->used_params`: parameter id, kind, and the
type oid recorded at plan time (`param->paramtype`). -/
structure PlanParam where
  paramid   : Nat
  paramkind : ParamKind
  paramtype : Nat
deriving DecidableEq, Repr

/-- A resolved `PARAM_EXEC` slot (`ParamExecData` after
`ExecSetParamPlan`): null flag and serialized value bytes. -/
structure ParamExecData where
  isnull : Bool
  value  : List Nat
deriving DecidableEq, Repr

/-- A `PARAM_EXTERN` record (`ParamExternData`): runtime type oid
(`0` = invalid, no value found), null flag, serialized value bytes. -/
structure ParamExternData where
  ptype  : Nat
  isnull : Bool
  value  : List Nat
deriving DecidableEq, Repr

/-- The `elog(ERROR, ...)` failures of `__build_session_param_info`
(executor.c:341, 343-346, 352).  `typeMismatch` carries the parameter id,
the runtime type and the plan-time type, matching the message "type of
parameter %d (%s) does not match that when preparing the plan (%s)". -/
inductive SessionBuildError where
  | noValueFound (paramid : Nat)
  | typeMismatch (paramid : Nat) (runtime_type : Nat) (plan_type : Nat)
  | unexpectedParamKind (paramid : Nat)
deriving DecidableEq, Repr

/-- Modelled from the spec: `__appendBinaryStringInfo` (declared in
pg_strom.h:863, defined in misc.c which is not among the sources) appends
the bytes at the end of the buffer and returns the byte offset at which
they were placed; offsets point into the arena that follows the session
header, and offset `0` is reserved for "absent". -/
def __appendBinaryStringInfo (buf : List Nat) (data : List Nat) :
    Nat × List Nat :=
  (buf.length, buf ++ data)

/-- Serialization of one resolved parameter value (executor.c:356-391):
a null value is recorded as offset `0` and nothing is appended; otherwise
the serialized bytes are appended and their offset recorded. -/
def serializeParamValue (param_isnull : Bool) (param_value : List Nat)
    (buf : List Nat) : Nat × List Nat :=
  if param_isnull then (0, buf)
  else __appendBinaryStringInfo buf param_value

/-- Processing of a single `foreach` iteration of
`__build_session_param_info` (executor.c:305-393): resolve the parameter
according to its kind — a `PARAM_EXTERN` parameter fails when its runtime
type is invalid or differs from the plan-time type — then serialize the
value, returning the recorded offset and the grown buffer. -/
def buildSessionParamStep (execVals : Nat → ParamExecData)
    (externVals : Nat → ParamExternData) (param : PlanParam)
    (buf : List Nat) : Except SessionBuildError (Nat × List Nat) :=
  match param.paramkind with
  | ParamKind.PARAM_EXEC =>
      let prm := execVals param.paramid
      Except.ok (serializeParamValue prm.isnull prm.value buf)
  | ParamKind.PARAM_EXTERN =>
      let prm := externVals param.paramid
      if prm.ptype = 0 then
        Except.error (SessionBuildError.noValueFound param.paramid)
      else if prm.ptype ≠ param.paramtype then
        Except.error (SessionBuildError.typeMismatch param.paramid
                        prm.ptype param.paramtype)
      else
        Except.ok (serializeParamValue prm.isnull prm.value buf)
  | ParamKind.otherKind =>
      Except.error (SessionBuildError.unexpectedParamKind param.paramid)

/-- `__build_session_param_info` (executor.c:293-395): fold over
`used_params`, writing each parameter's offset into the session's
`poffset` table (initially all zero from the `memset` in
`pgstromBuildSessionInfo`) and growing the arena buffer; the first
failing parameter aborts the whole build with its error, and no session
buffer is produced. -/
def __build_session_param_info (execVals : Nat → ParamExecData)
    (externVals : Nat → ParamExternData) :
    List PlanParam → List Nat → List Nat →
    Except SessionBuildError (List Nat × List Nat)
  | [], poffset, buf => Except.ok (poffset, buf)
  | param :: rest, poffset, buf =>
      match buildSessionParamStep execVals externVals param buf with
      | Except.error e => Except.error e
      | Except.ok (offset, buf') =>
          __build_session_param_info execVals externVals rest
            (poffset.set param.paramid offset) buf'

/-- `kern_session_info` as read by `pgfn_ParamExpr`: declared parameter
count, parameter offset table, and the session buffer bytes the offsets
point into. -/
structure KernSessionInfo where
  nparams : Nat
  poffset : List Nat
  data    : List Nat
deriving DecidableEq, Repr

/-- `pgfn_ParamExpr` (xpu_common.c:38-48): the address handed to
`xpu_datum_ref` is `(char *)session + poffset[param_id]` when
`param_id < nparams` and the recorded offset is non-zero, and NULL
otherwise — so an out-of-range id or a zero offset yields a null datum.
`w` is the `sizeof(BASETYPE)` of the parameter's simple result type. -/
def pgfn_ParamExpr (w : Nat) (session : KernSessionInfo) (param_id : Nat) :
    XpuDatum :=
  let addr : Option (List Nat) :=
    if param_id < session.nparams ∧ session.poffset.getD param_id 0 ≠ 0 then
      some (session.data.drop (session.poffset.getD param_id 0))
    else
      none
  xpu_datum_ref w addr

/-- Whether the runtime value resolved for a plan parameter (by the
`PARAM_EXEC` / `PARAM_EXTERN` paths of executor.c:314-349) is null. -/
def paramRuntimeIsNull (execVals : Nat → ParamExecData)
    (externVals : Nat → ParamExternData) (p : PlanParam) : Bool :=
  match p.paramkind with
  | ParamKind.PARAM_EXEC => (execVals p.paramid).isnull
  | ParamKind.PARAM_EXTERN => (externVals p.paramid).isnull
  | ParamKind.otherKind => false

/-! ## Theorems -/

/-- C1: the AND dispatcher stops at the first non-null false child as
required, but its short-circuit path (xpu_common.c:73-77) assigns only
`result->value` and returns without assigning `result->isnull`, so the
returned null flag is whatever the caller-supplied result buffer
previously held: with a stale set null bit, `AND(false, null)` comes out
null instead of the claimed non-null false.  The third conjunct checks the
claim's other table entry, `AND(true, null) = null`, which the code does
satisfy. -/
theorem and_short_circuit_keeps_stale_isnull :
    pgfn_BoolExprAnd ⟨true, true⟩ [⟨false, false⟩, ⟨true, false⟩]
      = ⟨true, false⟩ ∧
    pgfn_BoolExprAnd ⟨false, true⟩ [⟨false, false⟩, ⟨true, false⟩]
      = ⟨false, false⟩ ∧
    pgfn_BoolExprAnd ⟨false, false⟩ [⟨false, true⟩, ⟨true, false⟩]
      = ⟨true, true⟩ := by
  decide

/-- C5: `pgfn_BoolExprNot` propagates null correctly (third conjunct),
but in the non-null branch (xpu_common.c:129) it executes
`result->value = !result->value;`, negating the stale content of the
result buffer instead of the child's value: on the non-null true child
the result flips with the buffer's previous content, so it is not the
negation of the child. -/
theorem not_negates_stale_result_value :
    pgfn_BoolExprNot ⟨false, false⟩ ⟨false, true⟩ = ⟨false, true⟩ ∧
    pgfn_BoolExprNot ⟨false, true⟩ ⟨false, true⟩ = ⟨false, false⟩ ∧
    pgfn_BoolExprNot ⟨false, false⟩ ⟨true, false⟩ = ⟨true, false⟩ := by
  decide

/-- C6: `pgfn_NullTestExpr` and `pgfn_BoolTestExpr` evaluate their single
child and return the non-null boolean of the three-valued truth table:
IsNull(x) iff x is null, IsNotNull(x) iff x is non-null, IsTrue(x) iff x
is non-null true, IsNotTrue(x) iff x is null or false, IsFalse(x) iff x
is non-null false, IsNotFalse(x) iff x is null or true, IsUnknown(x) iff
x is null, IsNotUnknown(x) iff x is non-null. -/
theorem null_bool_test_truth_table :
    ∀ (isnull value : Bool),
      pgfn_NullTestExpr FuncOpCode.NullTestExpr_IsNull isnull
        = some ⟨false, isnull⟩ ∧
      pgfn_NullTestExpr FuncOpCode.NullTestExpr_IsNotNull isnull
        = some ⟨false, !isnull⟩ ∧
      pgfn_BoolTestExpr FuncOpCode.BoolTestExpr_IsTrue ⟨isnull, value⟩
        = some ⟨false, !isnull && value⟩ ∧
      pgfn_BoolTestExpr FuncOpCode.BoolTestExpr_IsNotTrue ⟨isnull, value⟩
        = some ⟨false, isnull || !value⟩ ∧
      pgfn_BoolTestExpr FuncOpCode.BoolTestExpr_IsFalse ⟨isnull, value⟩
        = some ⟨false, !isnull && !value⟩ ∧
      pgfn_BoolTestExpr FuncOpCode.BoolTestExpr_IsNotFalse ⟨isnull, value⟩
        = some ⟨false, isnull || value⟩ ∧
      pgfn_BoolTestExpr FuncOpCode.BoolTestExpr_IsUnknown ⟨isnull, value⟩
        = some ⟨false, isnull⟩ ∧
      pgfn_BoolTestExpr FuncOpCode.BoolTestExpr_IsNotUnknown ⟨isnull, value⟩
        = some ⟨false, !isnull⟩ := by
  decide

/-- Attaching a command never removes anything from the ready queue: an
`Error` command leaves it unchanged (whichever branch the sticky slot
takes) and any other command is appended at the tail. -/
theorem attachCommand_ready_cmds_list (conn : XpuConnection)
    (xcmd : XpuCommand) :
    (__xpuConnectAttachCommand conn xcmd).ready_cmds_list
      = if xcmd.tag = XpuCommandTag.Error then conn.ready_cmds_list
        else conn.ready_cmds_list ++ [xcmd] := by
  simp only [__xpuConnectAttachCommand]
  split_ifs <;> rfl

/-- C4: FIFO of the ready queue.  Over any interleaving of receiver-side
attachments and consumer-side fetches, the commands returned to the
consumer followed by the commands still queued equal the initial queue
followed by the enqueued responses in arrival order: appends go to the
tail (`dlist_push_tail`), pops come from the head (`dlist_pop_head_node`),
so successive fetches return r1, r2, ..., rn in exactly the order the
responses entered the ready queue. -/
theorem ready_queue_fifo :
    ∀ (es : List QueueEvent) (conn : XpuConnection),
      (runConnQueue conn es).1 ++ (runConnQueue conn es).2.ready_cmds_list
        = conn.ready_cmds_list ++ enqueuedResponses es := by
  intro es
  induction es with
  | nil =>
      intro conn
      simp [runConnQueue, enqueuedResponses]
  | cons e es ih =>
      intro conn
      cases e with
      | recv xcmd =>
          simp only [runConnQueue, enqueuedResponses]
          rw [ih, attachCommand_ready_cmds_list]
          by_cases h : xcmd.tag = XpuCommandTag.Error <;> simp [h]
      | fetch =>
          rcases hr : conn.ready_cmds_list with _ | ⟨x, rest⟩
          · simp only [runConnQueue, __pickupNextXpuCommand, hr,
              enqueuedResponses]
            rw [ih, hr]
          · simp only [runConnQueue, __pickupNextXpuCommand, hr,
              enqueuedResponses]
            rw [List.cons_append, ih]
            simp

/-- Effect of attaching a command on the running counter. -/
theorem attachCommand_num_running_cmds (conn : XpuConnection)
    (xcmd : XpuCommand) :
    (__xpuConnectAttachCommand conn xcmd).num_running_cmds
      = conn.num_running_cmds - 1 := by
  simp only [__xpuConnectAttachCommand]
  split_ifs <;> rfl

/-- Effect of attaching a command on the ready counter. -/
theorem attachCommand_num_ready_cmds (conn : XpuConnection)
    (xcmd : XpuCommand) :
    (__xpuConnectAttachCommand conn xcmd).num_ready_cmds
      = if xcmd.tag = XpuCommandTag.Error then conn.num_ready_cmds
        else conn.num_ready_cmds + 1 := by
  simp only [__xpuConnectAttachCommand]
  split_ifs <;> rfl

/-- Effect of attaching a command on the sticky error slot: an `Error`
command is merged only into a slot still holding the success code. -/
theorem attachCommand_errorbuf (conn : XpuConnection) (xcmd : XpuCommand) :
    (__xpuConnectAttachCommand conn xcmd).errorbuf
      = if xcmd.tag = XpuCommandTag.Error ∧
           conn.errorbuf.errcode = ERRCODE_STROM_SUCCESS then xcmd.error
        else conn.errorbuf := by
  simp only [__xpuConnectAttachCommand]
  by_cases h1 : xcmd.tag = XpuCommandTag.Error
  · by_cases h2 : conn.errorbuf.errcode = ERRCODE_STROM_SUCCESS
    · simp [h1, h2]
    · simp [h1, h2]
  · simp [h1]

/-- A pickup fails exactly on an empty ready queue (the case the source
excludes by `Assert(conn->num_ready_cmds > 0)`). -/
theorem pickup_eq_none_iff (conn : XpuConnection) :
    __pickupNextXpuCommand conn = none ↔ conn.ready_cmds_list = [] := by
  rcases hr : conn.ready_cmds_list with _ | ⟨x, rest⟩ <;>
    simp [__pickupNextXpuCommand, hr]

/-- A successful pickup returns the head of the ready queue and leaves
the tail, decrementing the ready counter and touching neither the running
counter nor the error slot. -/
theorem pickup_spec (conn conn' : XpuConnection) (xcmd : XpuCommand)
    (h : __pickupNextXpuCommand conn = some (xcmd, conn')) :
    conn.ready_cmds_list = xcmd :: conn'.ready_cmds_list ∧
    conn'.num_ready_cmds = conn.num_ready_cmds - 1 ∧
    conn'.num_running_cmds = conn.num_running_cmds ∧
    conn'.errorbuf = conn.errorbuf := by
  rcases hr : conn.ready_cmds_list with _ | ⟨x, rest⟩ <;>
    simp [__pickupNextXpuCommand, hr] at h
  obtain ⟨rfl, rfl⟩ := h
  simp [hr]

/-- The dispatcher selects the load-next-chunk branch only when there is
no sticky error, `running + ready < C`, and the ready queue is empty or
`running < C/2`. -/
theorem fetch_step_load_guard {C : Nat} {conn : XpuConnection}
    (h : __fetchNextXpuCommandStep C conn = FetchAction.loadNextChunk) :
    conn.errorbuf.errcode = ERRCODE_STROM_SUCCESS ∧
    conn.num_running_cmds + conn.num_ready_cmds < C ∧
    (conn.ready_cmds_list.isEmpty ∨ conn.num_running_cmds < C / 2) := by
  unfold __fetchNextXpuCommandStep at h
  by_cases h1 : conn.errorbuf.errcode ≠ ERRCODE_STROM_SUCCESS
  · rw [if_pos h1] at h
    simp at h
  · rw [if_neg h1] at h
    by_cases h2 : conn.num_running_cmds + conn.num_ready_cmds < C ∧
        (conn.ready_cmds_list.isEmpty ∨ conn.num_running_cmds < C / 2)
    · exact ⟨not_ne_iff.mp h1, h2.1, h2.2⟩
    · rw [if_neg h2] at h
      rcases hp : __pickupNextXpuCommand conn with _ | ⟨x, c'⟩ <;>
        rw [hp] at h <;> dsimp only at h
      · split_ifs at h
      · simp at h

/-- The terminal-drain loop reaches the finalization-chunk branch only
when there is no sticky error, the ready queue is empty and nothing is
running. -/
theorem wait_step_final_guard {conn : XpuConnection}
    (h : __waitAndFetchNextXpuCommandStep conn
           = WaitFetchAction.tryFinalChunk) :
    conn.errorbuf.errcode = ERRCODE_STROM_SUCCESS ∧
    conn.ready_cmds_list = [] ∧
    conn.num_running_cmds = 0 := by
  unfold __waitAndFetchNextXpuCommandStep at h
  by_cases h1 : conn.errorbuf.errcode ≠ ERRCODE_STROM_SUCCESS
  · rw [if_pos h1] at h
    simp at h
  · rw [if_neg h1] at h
    rcases hp : __pickupNextXpuCommand conn with _ | ⟨x, c'⟩ <;>
      rw [hp] at h <;> dsimp only at h
    · split_ifs at h with h2
      exact ⟨not_ne_iff.mp h1, (pickup_eq_none_iff conn).mp hp,
        Nat.eq_zero_of_not_pos h2⟩
    · simp at h

/-- No event of executor.c changes a sticky error slot that already holds
a non-success error record. -/
theorem xpuConnStep_errorbuf_sticky {C : Nat} {conn conn' : XpuConnection}
    (hs : XpuConnStep C conn conn')
    (herr : conn.errorbuf.errcode ≠ ERRCODE_STROM_SUCCESS) :
    conn'.errorbuf = conn.errorbuf := by
  cases hs with
  | send_open h1 h2 h3 => rfl
  | send_chunk h => rfl
  | send_final h => rfl
  | attach xcmd hrun hwf =>
      rw [attachCommand_errorbuf]
      split_ifs with h1
      · exact absurd h1.2 herr
      · rfl
  | pickup c2 xcmd hp => exact (pickup_spec _ _ xcmd hp).2.2.2

/-- Counter invariant of reachable connection states: the ready counter
mirrors the ready queue length, and (for `C ≥ 1`) the admitted total
`running + ready` never exceeds `C`. -/
theorem xpuConnReachable_counters {C : Nat} (hC : 1 ≤ C)
    {conn : XpuConnection} (h : XpuConnReachable C conn) :
    conn.num_ready_cmds = conn.ready_cmds_list.length ∧
    conn.num_running_cmds + conn.num_ready_cmds ≤ C := by
  induction h with
  | init => simp [initXpuConnection]
  | step hr hs ih =>
      obtain ⟨ihlen, ihsum⟩ := ih
      cases hs with
      | send_open h1 h2 h3 =>
          refine ⟨ihlen, ?_⟩
          simp only [xpuClientSendCommandIOV]
          omega
      | send_chunk hstep =>
          have hg := fetch_step_load_guard hstep
          refine ⟨ihlen, ?_⟩
          simp only [xpuClientSendCommandIOV]
          omega
      | send_final hstep =>
          have hg := wait_step_final_guard hstep
          refine ⟨ihlen, ?_⟩
          simp only [xpuClientSendCommandIOV]
          have hz : _ = (0 : Nat) := ihlen.trans (by rw [hg.2.1]; rfl)
          omega
      | attach xcmd hrun hwf =>
          rw [attachCommand_num_ready_cmds, attachCommand_num_running_cmds,
            attachCommand_ready_cmds_list]
          by_cases ht : xcmd.tag = XpuCommandTag.Error
          · simp only [ht, if_true, if_pos]
            exact ⟨ihlen, by omega⟩
          · simp only [ht, if_false, if_neg, List.length_append,
              List.length_cons, List.length_nil]
            exact ⟨by omega, by omega⟩
      | pickup c2 xcmd hp =>
          obtain ⟨hlist, hready, hrunning, herrb⟩ := pickup_spec _ _ xcmd hp
          have hlen1 : _ = _ + 1 :=
            ihlen.trans (by rw [hlist]; rfl)
          exact ⟨by omega, by omega⟩

/-- C2: sticky error invariant.  On a connection whose error slot holds a
non-success record, the dispatcher loop and the terminal-drain loop both
raise exactly the stored record before doing anything else; attaching any
further command (in particular a later `Error`) leaves the record
untouched, because an `Error` is merged only into a slot still holding
the success code; and along any sequence of further connection events the
record never changes — the first observed error wins. -/
theorem sticky_error_invariant (C : Nat) (conn : XpuConnection)
    (herr : conn.errorbuf.errcode ≠ ERRCODE_STROM_SUCCESS) :
    __fetchNextXpuCommandStep C conn
      = FetchAction.raiseError conn.errorbuf ∧
    __waitAndFetchNextXpuCommandStep conn
      = WaitFetchAction.raiseError conn.errorbuf ∧
    (∀ xcmd : XpuCommand,
       (__xpuConnectAttachCommand conn xcmd).errorbuf = conn.errorbuf) ∧
    (∀ conn' : XpuConnection,
       Relation.ReflTransGen (XpuConnStep C) conn conn' →
       conn'.errorbuf = conn.errorbuf) := by
  refine ⟨?_, ?_, ?_, ?_⟩
  · unfold __fetchNextXpuCommandStep
    rw [if_pos herr]
  · unfold __waitAndFetchNextXpuCommandStep
    rw [if_pos herr]
  · intro xcmd
    rw [attachCommand_errorbuf]
    split_ifs with h1
    · exact absurd h1.2 herr
    · rfl
  · intro conn' hrt
    induction hrt with
    | refl => rfl
    | tail h1 h2 ih =>
        rw [xpuConnStep_errorbuf_sticky h2 (by rw [ih]; exact herr), ih]

/-- Witness for C2 at a concrete connection carrying error code 42. -/
theorem sticky_error_invariant_witness :
    __fetchNextXpuCommandStep 2
        { initXpuConnection with
          errorbuf := ⟨42, "gpuserv.c", 123, "gpuservHandler", "boom"⟩ }
      = FetchAction.raiseError ⟨42, "gpuserv.c", 123, "gpuservHandler", "boom"⟩ ∧
    __waitAndFetchNextXpuCommandStep
        { initXpuConnection with
          errorbuf := ⟨42, "gpuserv.c", 123, "gpuservHandler", "boom"⟩ }
      = WaitFetchAction.raiseError
          ⟨42, "gpuserv.c", 123, "gpuservHandler", "boom"⟩ ∧
    (∀ xcmd : XpuCommand,
       (__xpuConnectAttachCommand
           { initXpuConnection with
             errorbuf := ⟨42, "gpuserv.c", 123, "gpuservHandler", "boom"⟩ }
           xcmd).errorbuf
         = ⟨42, "gpuserv.c", 123, "gpuservHandler", "boom"⟩) ∧
    (∀ conn' : XpuConnection,
       Relation.ReflTransGen (XpuConnStep 2)
         { initXpuConnection with
           errorbuf := ⟨42, "gpuserv.c", 123, "gpuservHandler", "boom"⟩ }
         conn' →
       conn'.errorbuf = ⟨42, "gpuserv.c", 123, "gpuservHandler", "boom"⟩) :=
  sticky_error_invariant 2
    { initXpuConnection with
      errorbuf := ⟨42, "gpuserv.c", 123, "gpuservHandler", "boom"⟩ }
    (by decide)

/-- C3: admission control.  On every reachable connection state the
dispatcher selects the send-new-chunk branch only when
`running + ready < C` and (the ready queue is empty or `running < C/2`),
and — the resulting invariant — at every observation point under the
connection mutex `running + ready ≤ C` (for any configured ceiling
`C ≥ 1`). -/
theorem admission_invariant (C : Nat) (hC : 1 ≤ C) (conn : XpuConnection)
    (h : XpuConnReachable C conn) :
    (__fetchNextXpuCommandStep C conn = FetchAction.loadNextChunk →
       conn.num_running_cmds + conn.num_ready_cmds < C ∧
       (conn.ready_cmds_list = [] ∨ conn.num_running_cmds < C / 2)) ∧
    conn.num_running_cmds + conn.num_ready_cmds ≤ C := by
  refine ⟨fun hl => ?_, (xpuConnReachable_counters hC h).2⟩
  obtain ⟨-, hlt, hor⟩ := fetch_step_load_guard hl
  exact ⟨hlt, by simpa [List.isEmpty_iff] using hor⟩

/-- Witness for C3 at `C = 2` on the initial connection state. -/
theorem admission_invariant_witness :
    (__fetchNextXpuCommandStep 2 initXpuConnection
         = FetchAction.loadNextChunk →
       initXpuConnection.num_running_cmds
           + initXpuConnection.num_ready_cmds < 2 ∧
       (initXpuConnection.ready_cmds_list = [] ∨
        initXpuConnection.num_running_cmds < 2 / 2)) ∧
    initXpuConnection.num_running_cmds + initXpuConnection.num_ready_cmds
      ≤ 2 :=
  admission_invariant 2 (by decide) initXpuConnection XpuConnReachable.init

/-- Writing another index of an offset table does not change the entry
read at `j`. -/
theorem getD_set_ne (l : List Nat) (v : Nat) :
    ∀ (i j : Nat), i ≠ j → (l.set i v).getD j 0 = l.getD j 0 := by
  induction l with
  | nil => intro i j _; rfl
  | cons a as ih =>
      intro i j hij
      cases i with
      | zero =>
          cases j with
          | zero => exact absurd rfl hij
          | succ j => rfl
      | succ i =>
          cases j with
          | zero => rfl
          | succ j =>
              simp only [List.set, List.getD_cons_succ]
              exact ih i j (fun e => hij (by rw [e]))

/-- Writing `0` at an index makes the entry read there `0` (also when the
index is out of range, where the default `0` is read). -/
theorem getD_set_self_zero (l : List Nat) :
    ∀ i : Nat, (l.set i 0).getD i 0 = 0 := by
  induction l with
  | nil => intro i; rfl
  | cons a as ih =>
      intro i
      cases i with
      | zero => rfl
      | succ i => exact ih i

/-- A successful session-parameter build leaves every offset-table entry
whose index is claimed by none of the processed parameters unchanged. -/
theorem build_param_info_preserves (execVals : Nat → ParamExecData)
    (externVals : Nat → ParamExternData) :
    ∀ (params : List PlanParam) (poffset buf po buf' : List Nat) (i : Nat),
      (∀ q ∈ params, q.paramid ≠ i) →
      __build_session_param_info execVals externVals params poffset buf
        = Except.ok (po, buf') →
      po.getD i 0 = poffset.getD i 0 := by
  intro params
  induction params with
  | nil =>
      intro poffset buf po buf' i _ hok
      simp only [__build_session_param_info, Except.ok.injEq, Prod.mk.injEq]
        at hok
      rw [← hok.1]
  | cons q rest ih =>
      intro poffset buf po buf' i hni hok
      simp only [__build_session_param_info] at hok
      rcases hstep : buildSessionParamStep execVals externVals q buf
        with e | ⟨off, buf2⟩ <;> rw [hstep] at hok
      · exact absurd hok (by simp)
      · have hrest := ih (poffset.set q.paramid off) buf2 po buf' i
          (fun r hr => hni r (List.mem_cons_of_mem _ hr)) hok
        rw [hrest, getD_set_ne _ _ _ _ (hni q (List.mem_cons_self _ _))]

/-- In a successful session-parameter build, a parameter whose resolved
runtime value is null gets offset `0` recorded in the offset table. -/
theorem build_null_param_offset (execVals : Nat → ParamExecData)
    (externVals : Nat → ParamExternData) :
    ∀ (params : List PlanParam) (poffset buf po buf' : List Nat)
      (p : PlanParam),
      p ∈ params →
      (params.map PlanParam.paramid).Nodup →
      paramRuntimeIsNull execVals externVals p = true →
      __build_session_param_info execVals externVals params poffset buf
        = Except.ok (po, buf') →
      po.getD p.paramid 0 = 0 := by
  intro params
  induction params with
  | nil =>
      intro _ _ _ _ p hp
      exact absurd hp (List.not_mem_nil p)
  | cons q rest ih =>
      intro poffset buf po buf' p hp hnodup hnull hok
      simp only [__build_session_param_info] at hok
      rcases hstep : buildSessionParamStep execVals externVals q buf
        with e | ⟨off, buf2⟩ <;> rw [hstep] at hok
      · exact absurd hok (by simp)
      · rcases List.mem_cons.mp hp with rfl | hmem
        · have hoff : off = 0 := by
            rcases hk : p.paramkind with _ | _ | _
            · simp only [paramRuntimeIsNull, hk] at hnull
              simp only [buildSessionParamStep, hk, serializeParamValue,
                hnull, if_true, Except.ok.injEq, Prod.mk.injEq] at hstep
              exact hstep.1.symm
            · simp only [paramRuntimeIsNull, hk] at hnull
              simp only [buildSessionParamStep, hk] at hstep
              split_ifs at hstep
              simp only [serializeParamValue, hnull, if_true,
                Except.ok.injEq, Prod.mk.injEq] at hstep
              exact hstep.1.symm
            · simp only [buildSessionParamStep, hk] at hstep
              exact absurd hstep (by simp)
          have hids : ∀ r ∈ rest, r.paramid ≠ p.paramid := by
            intro r hr
            have := (List.nodup_cons.mp hnodup).1
            intro he
            exact this (he ▸ List.mem_map_of_mem PlanParam.paramid hr)
          have hpres := build_param_info_preserves execVals externVals rest
            (poffset.set p.paramid off) buf2 po buf' p.paramid hids hok
          rw [hpres, hoff, getD_set_self_zero]
        · exact ih (poffset.set q.paramid off) buf2 po buf' p hmem
            (List.nodup_cons.mp hnodup).2 hnull hok

/-- C7: a parameter whose runtime value is null is recorded with offset
`0` in the session's parameter offset table, and on the device
`pgfn_ParamExpr` yields a null datum whenever the recorded offset is `0`
or the parameter id is out of range, since it then hands a NULL address
to `xpu_datum_ref`. -/
theorem null_param_zero_offset
    (execVals : Nat → ParamExecData) (externVals : Nat → ParamExternData)
    (params : List PlanParam) (poffset₀ buf₀ po buf' : List Nat)
    (hok : __build_session_param_info execVals externVals params poffset₀ buf₀
             = Except.ok (po, buf'))
    (p : PlanParam) (hp : p ∈ params)
    (hnodup : (params.map PlanParam.paramid).Nodup)
    (hnull : paramRuntimeIsNull execVals externVals p = true)
    (w : Nat) (session : KernSessionInfo) (param_id : Nat)
    (habsent : session.poffset.getD param_id 0 = 0 ∨
               session.nparams ≤ param_id) :
    po.getD p.paramid 0 = 0 ∧
    (pgfn_ParamExpr w session param_id).isnull = true := by
  refine ⟨build_null_param_offset execVals externVals params poffset₀ buf₀
    po buf' p hp hnodup hnull hok, ?_⟩
  have hguard : ¬ (param_id < session.nparams ∧
      session.poffset.getD param_id 0 ≠ 0) := by
    rcases habsent with h | h
    · exact fun hc => hc.2 h
    · exact fun hc => absurd hc.1 (not_lt.mpr h)
  simp only [pgfn_ParamExpr]
  rw [if_neg hguard]
  rfl

/-- Witness for C7: one `PARAM_EXTERN` parameter of type oid 23 whose
runtime value is null; the build records offset 0 and the device function
returns a null datum. -/
theorem null_param_zero_offset_witness :
    [(0 : Nat)].getD 0 0 = 0 ∧
    (pgfn_ParamExpr 4 ⟨1, [0], [0, 0, 0, 0]⟩ 0).isnull = true :=
  null_param_zero_offset
    (fun _ => ⟨true, []⟩) (fun _ => ⟨23, true, []⟩)
    [⟨0, ParamKind.PARAM_EXTERN, 23⟩] [0] [0, 0, 0, 0] [0] [0, 0, 0, 0]
    (by rfl)
    ⟨0, ParamKind.PARAM_EXTERN, 23⟩ (by simp)
    (by simp)
    (by rfl)
    4 ⟨1, [0], [0, 0, 0, 0]⟩ 0 (Or.inl (by rfl))

/-- Whenever `used_params` contains an external parameter whose runtime
type differs from the plan-time type, the whole session-parameter build
fails with an error. -/
theorem build_mismatch_fails (execVals : Nat → ParamExecData)
    (externVals : Nat → ParamExternData) :
    ∀ (params : List PlanParam) (poffset buf : List Nat) (p : PlanParam),
      p ∈ params →
      p.paramkind = ParamKind.PARAM_EXTERN →
      (externVals p.paramid).ptype ≠ p.paramtype →
      ∃ e, __build_session_param_info execVals externVals params poffset buf
             = Except.error e := by
  intro params
  induction params with
  | nil =>
      intro _ _ p hp
      exact absurd hp (List.not_mem_nil p)
  | cons q rest ih =>
      intro poffset buf p hp hkind hmis
      rcases hstep : buildSessionParamStep execVals externVals q buf
        with e | ⟨off, buf2⟩
      · exact ⟨e, by simp [__build_session_param_info, hstep]⟩
      · rcases List.mem_cons.mp hp with rfl | hmem
        · exfalso
          simp only [buildSessionParamStep, hkind] at hstep
          split_ifs at hstep
        · obtain ⟨e, he⟩ := ih (poffset.set q.paramid off) buf2 p hmem
            hkind hmis
          exact ⟨e, by simp [__build_session_param_info, hstep, he]⟩

/-- C8: session build fails — producing an `Except.error`, hence no
offset table and no session buffer — whenever an external parameter's
runtime type does not equal the type recorded at plan time; and the
parameter's own processing step fails precisely with the
`typeMismatch` error naming the parameter id, the runtime type and the
plan-time type (when the runtime type is valid, i.e. non-zero — an
invalid type fails earlier with `noValueFound`). -/
theorem param_type_mismatch_fails
    (execVals : Nat → ParamExecData) (externVals : Nat → ParamExternData)
    (params : List PlanParam) (poffset₀ buf₀ buf₁ : List Nat)
    (p : PlanParam) (hp : p ∈ params)
    (hkind : p.paramkind = ParamKind.PARAM_EXTERN)
    (hmis : (externVals p.paramid).ptype ≠ p.paramtype) :
    (∃ e, __build_session_param_info execVals externVals params poffset₀ buf₀
            = Except.error e) ∧
    ((externVals p.paramid).ptype ≠ 0 →
       buildSessionParamStep execVals externVals p buf₁
         = Except.error (SessionBuildError.typeMismatch p.paramid
             (externVals p.paramid).ptype p.paramtype)) := by
  refine ⟨build_mismatch_fails execVals externVals params poffset₀ buf₀ p hp
    hkind hmis, fun hvalid => ?_⟩
  unfold buildSessionParamStep
  rw [hkind]
  rw [if_neg (by simpa using hvalid), if_pos hmis]

/-- Witness for C8: an external parameter planned at type oid 23 whose
runtime record carries type oid 99. -/
theorem param_type_mismatch_fails_witness :
    (∃ e, __build_session_param_info (fun _ => ⟨true, []⟩)
            (fun _ => ⟨99, false, [7]⟩)
            [⟨0, ParamKind.PARAM_EXTERN, 23⟩] [0] []
            = Except.error e) ∧
    buildSessionParamStep (fun _ => ⟨true, []⟩) (fun _ => ⟨99, false, [7]⟩)
        ⟨0, ParamKind.PARAM_EXTERN, 23⟩ []
      = Except.error (SessionBuildError.typeMismatch 0 99 23) :=
  ⟨(param_type_mismatch_fails (fun _ => ⟨true, []⟩)
      (fun _ => ⟨99, false, [7]⟩) [⟨0, ParamKind.PARAM_EXTERN, 23⟩] [0] [] []
      ⟨0, ParamKind.PARAM_EXTERN, 23⟩ (by simp) (by rfl) (by decide)).1,
   (param_type_mismatch_fails (fun _ => ⟨true, []⟩)
      (fun _ => ⟨99, false, [7]⟩) [⟨0, ParamKind.PARAM_EXTERN, 23⟩] [0] [] []
      ⟨0, ParamKind.PARAM_EXTERN, 23⟩ (by simp) (by rfl) (by decide)).2
      (by decide)⟩

/-- The little-endian encoding writes exactly `w` bytes. -/
theorem leEncode_length (w : Nat) : ∀ v : Nat, (leEncode w v).length = w := by
  induction w with
  | zero => intro v; rfl
  | succ w ih =>
      intro v
      simp only [leEncode, List.length_cons, ih]

/-- Decoding the `w`-byte little-endian encoding recovers the value
modulo `256^w`. -/
theorem leDecode_leEncode (w : Nat) :
    ∀ v : Nat, leDecode (leEncode w v) = v % 256 ^ w := by
  induction w with
  | zero =>
      intro v
      simp [leEncode, leDecode, Nat.mod_one]
  | succ w ih =>
      intro v
      simp only [leEncode, leDecode, ih]
      rw [pow_succ', Nat.mod_mul]

/-- C10: for every simple fixed-width base type in the catalog, storing a
non-null datum writes exactly `sizeof(BASETYPE)` bytes (and returns that
count), re-referencing those bytes restores the same non-null datum;
storing a null datum writes zero bytes; referencing a NULL address yields
a null datum, and hashing a null datum gives the fixed sentinel `0`. -/
theorem simple_basetype_store_ref_roundtrip
    (t : XpuTypeEntry) (ht : t ∈ builtin_simple_basetypes)
    (v : Nat) (hv : v < 256 ^ t.width) :
    (xpu_datum_store t.width ⟨false, v⟩).1.length = t.width ∧
    (xpu_datum_store t.width ⟨false, v⟩).2 = t.width ∧
    xpu_datum_ref t.width (some (xpu_datum_store t.width ⟨false, v⟩).1)
      = ⟨false, v⟩ ∧
    xpu_datum_store t.width ⟨true, v⟩ = ([], 0) ∧
    xpu_datum_ref t.width none = ⟨true, 0⟩ ∧
    xpu_datum_hash t.width (xpu_datum_ref t.width none) = 0 := by
  refine ⟨?_, rfl, ?_, rfl, rfl, rfl⟩
  · simp [xpu_datum_store, leEncode_length]
  · simp [xpu_datum_store, xpu_datum_ref]
    rw [List.take_of_length_le (le_of_eq (leEncode_length t.width v)),
      leDecode_leEncode]
    exact Nat.mod_eq_of_lt hv

/-- Witness for C10 at the `int4` catalog entry and value `0x12345678`. -/
theorem simple_basetype_store_ref_roundtrip_witness :
    (xpu_datum_store 4 ⟨false, 305419896⟩).1.length = 4 ∧
    (xpu_datum_store 4 ⟨false, 305419896⟩).2 = 4 ∧
    xpu_datum_ref 4 (some (xpu_datum_store 4 ⟨false, 305419896⟩).1)
      = ⟨false, 305419896⟩ ∧
    xpu_datum_store 4 ⟨true, 305419896⟩ = ([], 0) ∧
    xpu_datum_ref 4 none = ⟨true, 0⟩ ∧
    xpu_datum_hash 4 (xpu_datum_ref 4 none) = 0 :=
  simple_basetype_store_ref_roundtrip ⟨"int4", 4⟩ (by simp
    [builtin_simple_basetypes]) 305419896 (by norm_num)

/-- The two tail switches of `pg_hash_any` add the same byte
contributions to the state triple: the word-wide additions of the aligned
path equal the shifted single-byte additions of the unaligned path,
reduced modulo `2^32`. -/
theorem hash_tail_eq (ks : List Nat) (a b c : Nat) :
    pg_hash_any_aligned_tail ks a b c
      = pg_hash_any_unaligned_tail ks a b c := by
  have h8 : ∀ x : Nat, x <<< 8 = x * 256 := fun x => by
    rw [Nat.shiftLeft_eq]
  have h16 : ∀ x : Nat, x <<< 16 = x * 65536 := fun x => by
    rw [Nat.shiftLeft_eq]
  have h24 : ∀ x : Nat, x <<< 24 = x * 16777216 := fun x => by
    rw [Nat.shiftLeft_eq]
  rcases ks with _ | ⟨k0, _ | ⟨k1, _ | ⟨k2, _ | ⟨k3, _ | ⟨k4, _ | ⟨k5,
    _ | ⟨k6, _ | ⟨k7, _ | ⟨k8, _ | ⟨k9, _ | ⟨k10, _ | ⟨k11, rest⟩⟩⟩⟩⟩⟩⟩⟩⟩⟩⟩⟩
  · rfl
  · rfl
  · rfl
  · rfl
  · refine Prod.ext ?_ rfl
    dsimp only [pg_hash_any_aligned_tail, pg_hash_any_unaligned_tail]
    simp only [add32, le32, UINT32_MOD, h8, h16, h24]
    omega
  · refine Prod.ext ?_ rfl
    dsimp only [pg_hash_any_aligned_tail, pg_hash_any_unaligned_tail]
    simp only [add32, le32, UINT32_MOD, h8, h16, h24]
    omega
  · refine Prod.ext ?_ rfl
    dsimp only [pg_hash_any_aligned_tail, pg_hash_any_unaligned_tail]
    simp only [add32, le32, UINT32_MOD, h8, h16, h24]
    omega
  · refine Prod.ext ?_ rfl
    dsimp only [pg_hash_any_aligned_tail, pg_hash_any_unaligned_tail]
    simp only [add32, le32, UINT32_MOD, h8, h16, h24]
    omega
  · refine Prod.ext ?_ (Prod.ext ?_ rfl) <;>
      (dsimp only [pg_hash_any_aligned_tail, pg_hash_any_unaligned_tail];
       simp only [add32, le32, UINT32_MOD, h8, h16, h24]; omega)
  · refine Prod.ext ?_ (Prod.ext ?_ rfl) <;>
      (dsimp only [pg_hash_any_aligned_tail, pg_hash_any_unaligned_tail];
       simp only [add32, le32, UINT32_MOD, h8, h16, h24]; omega)
  · refine Prod.ext ?_ (Prod.ext ?_ rfl) <;>
      (dsimp only [pg_hash_any_aligned_tail, pg_hash_any_unaligned_tail];
       simp only [add32, le32, UINT32_MOD, h8, h16, h24]; omega)
  · refine Prod.ext ?_ (Prod.ext ?_ rfl) <;>
      (dsimp only [pg_hash_any_aligned_tail, pg_hash_any_unaligned_tail];
       simp only [add32, le32, UINT32_MOD, h8, h16, h24]; omega)
  · rfl

/-- Loop-level equality of the two `pg_hash_any` code paths, by strong
induction on the number of remaining bytes: the 12-byte loop bodies add
the same three words (little-endian fetch = byte composition), and the
two tail switches agree by `hash_tail_eq`. -/
theorem hash_rest_eq :
    ∀ (n : Nat) (ks : List Nat), ks.length ≤ n → ∀ a b c : Nat,
      pg_hash_any_aligned_rest ks a b c
        = pg_hash_any_unaligned_rest ks a b c := by
  intro n
  induction n with
  | zero =>
      intro ks hlen a b c
      have hnil : ks = [] := List.eq_nil_of_length_eq_zero
        (Nat.le_zero.mp hlen)
      subst hnil
      simp only [pg_hash_any_aligned_rest, pg_hash_any_unaligned_rest]
      rw [hash_tail_eq]
  | succ n ih =>
      intro ks hlen a b c
      rcases ks with _ | ⟨k0, _ | ⟨k1, _ | ⟨k2, _ | ⟨k3, _ | ⟨k4, _ | ⟨k5,
        _ | ⟨k6, _ | ⟨k7, _ | ⟨k8, _ | ⟨k9, _ | ⟨k10,
        _ | ⟨k11, rest⟩⟩⟩⟩⟩⟩⟩⟩⟩⟩⟩⟩
      case cons.cons.cons.cons.cons.cons.cons.cons.cons.cons.cons.cons =>
        simp only [pg_hash_any_aligned_rest, pg_hash_any_unaligned_rest,
          le32]
        apply ih
        simp only [List.length_cons] at hlen
        omega
      all_goals
        simp only [pg_hash_any_aligned_rest, pg_hash_any_unaligned_rest]
      all_goals rw [hash_tail_eq]

/-- C9: `pg_hash_any` computes the same 32-bit hash through its
word-aligned fast path as through its unaligned byte-at-a-time path: the
result depends only on the bytes and the length, not on the pointer's
alignment. -/
theorem pg_hash_any_alignment_independent :
    ∀ ks : List Nat, pg_hash_any_aligned ks = pg_hash_any_unaligned ks := by
  intro ks
  simp only [pg_hash_any_aligned, pg_hash_any_unaligned]
  exact hash_rest_eq ks.length ks (le_refl _) _ _ _

end PgStrom
